import Mathlib

/-!
Verification of the student-management HTTP service in `main.go`.

The service keeps a process-wide slice `students []Student` guarded by a
mutex.  Each HTTP handler is a sequential function of the store (the mutex
makes every operation atomic), so we embed the store as a `List Student`
and each handler as a pure function from the store (plus the parsed
request data) to an HTTP status, an optional response record, and the new
store.  Machine integers (`int` in Go) are embedded as `Int`; overflow is
irrelevant at the sizes involved and Go's `int` is a true signed integer.
-/

/-- The record type, from `type Student struct` in main.go. -/
structure Student where
  id : Int
  name : String
  age : Int
  email : String
deriving DecidableEq, Repr

/-- `validateStudent` from main.go (lines 49–60): name non-empty, then
`age <= 0 || age > 150`, then email non-empty; first failure's message is
returned as the error. -/
def validateStudent (student : Student) : Except String Unit :=
  if student.name = "" then .error "name is required"
  else if student.age ≤ 0 ∨ student.age > 150 then .error "age must be between 1 and 150"
  else if student.email = "" then .error "email is required"
  else .ok ()

/-- Spec-side restatement of the validation rules, written from the spec's
words (§4.2): "checked in this fixed order (first failure wins): name
non-empty; age in [1,150]; email non-empty".  Used only to compare with
`validateStudent`. -/
def specValidate (candidate : Student) : Except String Unit :=
  if candidate.name = "" then .error "name is required"
  else if ¬ (1 ≤ candidate.age ∧ candidate.age ≤ 150) then .error "age must be between 1 and 150"
  else if candidate.email = "" then .error "email is required"
  else .ok ()

/-- The POST /students handler after body decoding (main.go lines 154–166):
validate, on failure 400 and no mutation; on success assign
`ID = len(students) + 1`, append, respond 201 with the stored record.
Result is (status, response body, new store). -/
def createStudent (students : List Student) (newStudent : Student) :
    Nat × Option Student × List Student :=
  match validateStudent newStudent with
  | .error _ => (400, none, students)
  | .ok _ =>
    let stored := { newStudent with id := (students.length : Int) + 1 }
    (201, some stored, students ++ [stored])

/-- The scan loop of the GET /students/{id} handler (main.go lines 186–192):
first record whose `ID` equals `id`, if any. -/
def getStudent : List Student → Int → Option Student
  | [], _ => none
  | s :: rest, i => if s.id = i then some s else getStudent rest i

/-- The GET /students/{id} handler (main.go lines 183–193): 200 with the
first matching record, else 404. -/
def getHandler (students : List Student) (i : Int) : Nat × Option Student :=
  match getStudent students i with
  | some s => (200, some s)
  | none => (404, none)

/-- `handleStudents` / GET /students (main.go lines 34–47): returns the
whole slice in insertion order. -/
def listHandler (students : List Student) : List Student := students

/-- The scan loop of the PUT handler (main.go lines 244–251): replace the
first record whose `ID` matches `upd.ID`; `none` when no record matches. -/
def updateFirst : List Student → Student → Option (List Student)
  | [], _ => none
  | s :: rest, upd =>
    if s.id = upd.id then some (upd :: rest)
    else Option.map (fun l => s :: l) (updateFirst rest upd)

/-- The PUT /students/{id} handler after body decoding (main.go lines
202–252): force `ID = id` (line 203 / 211), validate, replace the first
matching record, 200 with the stored record, else 404; 400 leaves the
store untouched. -/
def updateStudent (students : List Student) (i : Int) (body : Student) :
    Nat × Option Student × List Student :=
  let updatedStudent := { body with id := i }
  match validateStudent updatedStudent with
  | .error _ => (400, none, students)
  | .ok _ =>
    match updateFirst students updatedStudent with
    | some l2 => (200, some updatedStudent, l2)
    | none => (404, none, students)

/-- The scan loop of the DELETE handler (main.go lines 264–270): remove the
first record whose `ID` equals `i` (`append(students[:i], students[i+1:]...)`);
`none` when no record matches. -/
def deleteFirst : List Student → Int → Option (List Student)
  | [], _ => none
  | s :: rest, i =>
    if s.id = i then some rest
    else Option.map (fun l => s :: l) (deleteFirst rest i)

/-- The DELETE /students/{id} handler (main.go lines 261–271): 204 after
removing the first matching record, else 404 with the store untouched. -/
def deleteStudent (students : List Student) (i : Int) : Nat × List Student :=
  match deleteFirst students i with
  | some l2 => (204, l2)
  | none => (404, students)

/-- The content-type test used verbatim in both body-decoding branches
(main.go lines 127 and 206): exact string equality with
"application/json". -/
def isJSONRequest (contentType : String) : Bool :=
  contentType == "application/json"

/-- An inbound POST/PUT request body, embedded shallowly: `contentType` is
the Content-Type header value, `jsonBody` is what JSON decoding of the raw
bytes would yield (`none` = malformed JSON), and the `form*` fields are
what form parsing would yield for the keys "name", "age", "email". -/
structure Request where
  contentType : String
  jsonBody : Option Student
  formName : String
  formAgeStr : String
  formEmail : String
deriving Repr

/-- The JSON branch of body decoding (main.go lines 128–131 / 207–210):
decode error → 400 "Invalid JSON data". -/
def jsonDecode (r : Request) : Except String Student :=
  match r.jsonBody with
  | some s => .ok s
  | none => .error "Invalid JSON data"

/-- The form branch of body decoding (main.go lines 134–151 / 214–231):
age required, must parse as an integer; `ID` is left at its zero value. -/
def formDecode (r : Request) : Except String Student :=
  if r.formAgeStr = "" then .error "Age is required"
  else
    match r.formAgeStr.toInt? with
    | some age => .ok { id := 0, name := r.formName, age := age, email := r.formEmail }
    | none => .error ("Invalid age: " ++ r.formAgeStr ++ " (must be a number)")

/-- Body decoding shared by POST and PUT (main.go lines 126–152 and
205–232): the JSON branch runs exactly when `isJSONRequest` holds,
otherwise the form branch runs. -/
def decodeBody (r : Request) : Except String Student :=
  if isJSONRequest r.contentType then jsonDecode r else formDecode r

/-- The full POST /students handler (main.go lines 123–166): decode body
(400 on failure, store untouched) then create. -/
def postStudents (students : List Student) (r : Request) :
    Nat × Option Student × List Student :=
  match decodeBody r with
  | .error _ => (400, none, students)
  | .ok newStudent => createStudent students newStudent

/-- The full PUT /students/{id} handler (main.go lines 194–252): decode
body (400 on failure, store untouched) then update. -/
def putStudent (students : List Student) (i : Int) (r : Request) :
    Nat × Option Student × List Student :=
  match decodeBody r with
  | .error _ => (400, none, students)
  | .ok body => updateStudent students i body

/-- One store-mutating HTTP request, for reachability of store states. -/
inductive Op where
  | create (body : Student)
  | update (i : Int) (body : Student)
  | delete (i : Int)
deriving Repr

/-- Effect of one request on the store (failed requests leave it as is). -/
def applyOp (students : List Student) : Op → List Student
  | .create body => (createStudent students body).2.2
  | .update i body => (updateStudent students i body).2.2
  | .delete i => (deleteStudent students i).2

/-- The store state after a sequence of requests, starting from the empty
store (`students = []Student{}`, main.go line 103). -/
def runOps (ops : List Op) : List Student := ops.foldl applyOp []

/-- Concrete valid candidates used in witnesses and counterexamples. -/
def stA : Student := { id := 0, name := "Ann", age := 20, email := "ann@x.com" }

def stB : Student := { id := 0, name := "Bob", age := 21, email := "bob@x.com" }

def stC : Student := { id := 0, name := "Cui", age := 22, email := "cui@x.com" }

def stD : Student := { id := 0, name := "Dee", age := 23, email := "dee@x.com" }

/-- A request sequence reaching a store with a duplicated id: three
creates, delete of id 1, then another create (which reuses id 3). -/
def demoOps : List Op := [.create stA, .create stB, .create stC, .delete 1, .create stD]

def stA1 : Student := { stA with id := 1 }

def stB2 : Student := { stB with id := 2 }

/-- A candidate with age 0 (invalid). -/
def cAge0 : Student := { id := 0, name := "Ann", age := 0, email := "ann@x.com" }

/-- A candidate with age 151 (invalid). -/
def cAge151 : Student := { id := 0, name := "Ann", age := 151, email := "ann@x.com" }

/-- A candidate with an empty name (invalid). -/
def cNoName : Student := { id := 0, name := "", age := 20, email := "a@b.com" }

/-- A request whose Content-Type is a charset variant of application/json. -/
def rCharset : Request :=
  { contentType := "application/json; charset=utf-8", jsonBody := none,
    formName := "Ann", formAgeStr := "20", formEmail := "ann@x.com" }

/-- A JSON request whose body carries a client-chosen id of 999. -/
def rJson999 : Request :=
  { contentType := "application/json",
    jsonBody := some { id := 999, name := "Ann", age := 20, email := "ann@x.com" },
    formName := "", formAgeStr := "", formEmail := "" }

/-- The record actually stored by `postStudents [] rJson999`. -/
def stStored : Student := { id := 1, name := "Ann", age := 20, email := "ann@x.com" }

/-! ## Helper lemmas (shared across claims) -/

theorem validateStudent_ok_bounds (c : Student) (u : Unit)
    (h : validateStudent c = .ok u) :
    c.name ≠ "" ∧ 1 ≤ c.age ∧ c.age ≤ 150 ∧ c.email ≠ "" := by
  unfold validateStudent at h
  split_ifs at h with h1 h2 h3
  refine ⟨h1, ?_, ?_, h3⟩ <;> omega

theorem getStudent_none (i : Int) :
    ∀ l : List Student, (∀ x ∈ l, x.id ≠ i) → getStudent l i = none := by
  intro l
  induction l with
  | nil => intro _; rfl
  | cons s rest ih =>
    intro h
    have hs : s.id ≠ i := h s (List.mem_cons_self s rest)
    simp only [getStudent, if_neg hs]
    exact ih fun x hx => h x (List.mem_cons_of_mem s hx)

theorem getStudent_first (i : Int) (r : Student) (hr : r.id = i) :
    ∀ pre post : List Student, (∀ x ∈ pre, x.id ≠ i) →
      getStudent (pre ++ r :: post) i = some r := by
  intro pre
  induction pre with
  | nil =>
    intro post _
    simp only [List.nil_append, getStudent, if_pos hr]
  | cons s rest ih =>
    intro post h
    have hs : s.id ≠ i := h s (List.mem_cons_self s rest)
    simp only [List.cons_append, getStudent, if_neg hs]
    exact ih post fun x hx => h x (List.mem_cons_of_mem s hx)

theorem updateFirst_none (upd : Student) :
    ∀ l : List Student, (∀ x ∈ l, x.id ≠ upd.id) → updateFirst l upd = none := by
  intro l
  induction l with
  | nil => intro _; rfl
  | cons s rest ih =>
    intro h
    have hs : s.id ≠ upd.id := h s (List.mem_cons_self s rest)
    simp only [updateFirst, if_neg hs]
    rw [ih fun x hx => h x (List.mem_cons_of_mem s hx)]
    rfl

theorem updateFirst_app (upd : Student) (r : Student) (hr : r.id = upd.id) :
    ∀ pre post : List Student, (∀ x ∈ pre, x.id ≠ upd.id) →
      updateFirst (pre ++ r :: post) upd = some (pre ++ upd :: post) := by
  intro pre
  induction pre with
  | nil =>
    intro post _
    simp only [List.nil_append, updateFirst, if_pos hr]
  | cons s rest ih =>
    intro post h
    have hs : s.id ≠ upd.id := h s (List.mem_cons_self s rest)
    simp only [List.cons_append, updateFirst, if_neg hs, List.append_eq]
    rw [ih post fun x hx => h x (List.mem_cons_of_mem s hx)]
    rfl

theorem updateFirst_found (upd : Student) :
    ∀ l : List Student, (∃ r ∈ l, r.id = upd.id) →
      ∃ l2, updateFirst l upd = some l2 ∧ getStudent l2 upd.id = some upd := by
  intro l
  induction l with
  | nil => intro h; simp at h
  | cons s rest ih =>
    intro h
    by_cases hs : s.id = upd.id
    · refine ⟨upd :: rest, ?_, ?_⟩
      · simp only [updateFirst, if_pos hs]
      · simp [getStudent]
    · obtain ⟨r, hr, hrid⟩ := h
      rcases List.mem_cons.mp hr with rfl | hr2
      · exact absurd hrid hs
      · obtain ⟨l2, hl2, hget⟩ := ih ⟨r, hr2, hrid⟩
        refine ⟨s :: l2, ?_, ?_⟩
        · simp only [updateFirst, if_neg hs, hl2]
          rfl
        · simp only [getStudent, if_neg hs, hget]

theorem deleteFirst_none (i : Int) :
    ∀ l : List Student, (∀ x ∈ l, x.id ≠ i) → deleteFirst l i = none := by
  intro l
  induction l with
  | nil => intro _; rfl
  | cons s rest ih =>
    intro h
    have hs : s.id ≠ i := h s (List.mem_cons_self s rest)
    simp only [deleteFirst, if_neg hs]
    rw [ih fun x hx => h x (List.mem_cons_of_mem s hx)]
    rfl

theorem deleteFirst_app (i : Int) (r : Student) (hr : r.id = i) :
    ∀ pre post : List Student, (∀ x ∈ pre, x.id ≠ i) →
      deleteFirst (pre ++ r :: post) i = some (pre ++ post) := by
  intro pre
  induction pre with
  | nil =>
    intro post _
    simp only [List.nil_append, deleteFirst, if_pos hr]
  | cons s rest ih =>
    intro post h
    have hs : s.id ≠ i := h s (List.mem_cons_self s rest)
    simp only [List.cons_append, deleteFirst, if_neg hs, List.append_eq]
    rw [ih post fun x hx => h x (List.mem_cons_of_mem s hx)]
    rfl

theorem createStudent_some_id (sts : List Student) (ns s : Student)
    (h : (createStudent sts ns).2.1 = some s) :
    s.id = (sts.length : Int) + 1 := by
  unfold createStudent at h
  split at h
  · simp at h
  · simp only [Option.some.injEq] at h
    rw [← h]

theorem updateStudent_some_id (sts : List Student) (i : Int) (body s : Student)
    (h : (updateStudent sts i body).2.1 = some s) : s.id = i := by
  simp only [updateStudent] at h
  split at h
  · simp at h
  · split at h
    · simp only [Option.some.injEq] at h
      rw [← h]
    · simp at h

/-! ## Claim theorems -/

/-- Claim C1: the spec asserts that in every reachable store state all
student ids are distinct.  The code violates this: after
create, create, create, delete(1), create, the store's ids are [2, 3, 3]
(the last create reuses id `len+1 = 3`), so the reachable state has a
duplicated id.  This theorem evaluates the code at that request sequence. -/
theorem C1_duplicate_ids :
    (runOps demoOps).map Student.id = [2, 3, 3] ∧
    ¬ ((runOps demoOps).map Student.id).Nodup := by decide

/-- Claim C2: for every store and every candidate passing validation,
create assigns id = pre-create count + 1, appends the stored record at the
end, answers 201 with the stored record, and the record appears in
list(). -/
theorem C2_create_ok (students : List Student) (body : Student)
    (h : validateStudent body = .ok ()) :
    (createStudent students body).1 = 201 ∧
    (createStudent students body).2.1 =
      some { body with id := (students.length : Int) + 1 } ∧
    (createStudent students body).2.2 =
      students ++ [{ body with id := (students.length : Int) + 1 }] ∧
    { body with id := (students.length : Int) + 1 } ∈
      listHandler (createStudent students body).2.2 := by
  simp [createStudent, h, listHandler]

/-- Claim C2 witness: creating Ann in the empty store. -/
theorem C2_witness :
    validateStudent stA = .ok () ∧ (createStudent [] stA).1 = 201 :=
  ⟨rfl, (C2_create_ok [] stA rfl).1⟩

/-- Claim C3: validation checks name, then age in [1,150], then email, in
that order with the first failing rule's message (validateStudent agrees
pointwise with the spec's rule order); it is the same function for create
and update, and candidates with age 0 or age 151 get a 400 from both. -/
theorem C3_validation_order :
    (∀ c : Student, validateStudent c = specValidate c) ∧
    (∀ (sts : List Student) (c : Student), c.age = 0 ∨ c.age = 151 →
        (createStudent sts c).1 = 400) ∧
    (∀ (sts : List Student) (i : Int) (c : Student), c.age = 0 ∨ c.age = 151 →
        (updateStudent sts i c).1 = 400) := by
  refine ⟨?_, ?_, ?_⟩
  · intro c
    unfold validateStudent specValidate
    split_ifs <;> first | rfl | (exfalso; omega)
  · intro sts c h
    cases hv : validateStudent c with
    | error e => simp [createStudent, hv]
    | ok u =>
      have hb := validateStudent_ok_bounds c u hv
      omega
  · intro sts i c h
    cases hv : validateStudent { c with id := i } with
    | error e => simp [updateStudent, hv]
    | ok u =>
      have hb := validateStudent_ok_bounds { c with id := i } u hv
      simp only at hb
      omega

/-- Claim C3 witness: age 0 on create and age 151 on update both give 400. -/
theorem C3_witness :
    (createStudent [] cAge0).1 = 400 ∧ (updateStudent [] 1 cAge151).1 = 400 :=
  ⟨C3_validation_order.2.1 [] cAge0 (Or.inl rfl),
   C3_validation_order.2.2 [] 1 cAge151 (Or.inr rfl)⟩

/-- Claim C4: a create whose candidate fails validation answers 400 and
leaves the store exactly as it was (nothing appended, no id consumed). -/
theorem C4_invalid_create (students : List Student) (c : Student) (e : String)
    (h : validateStudent c = .error e) :
    (createStudent students c).1 = 400 ∧
    (createStudent students c).2.2 = students := by
  simp [createStudent, h]

/-- Claim C4 witness: empty name, age 20, non-empty email. -/
theorem C4_witness :
    validateStudent cNoName = .error "name is required" ∧
    (createStudent [stA1] cNoName).1 = 400 ∧
    (createStudent [stA1] cNoName).2.2 = [stA1] := by
  refine ⟨rfl, ?_, ?_⟩
  · exact (C4_invalid_create [stA1] cNoName "name is required" rfl).1
  · exact (C4_invalid_create [stA1] cNoName "name is required" rfl).2

/-- Claim C5: for an id present in the store and valid replacement fields
X, update(id, X) answers 200 with the stored record, and get(id) then
returns exactly X's fields with the id unchanged. -/
theorem C5_update_roundtrip (students : List Student) (i : Int) (X : Student)
    (hin : ∃ r ∈ students, r.id = i)
    (hv : validateStudent { X with id := i } = .ok ()) :
    (updateStudent students i X).1 = 200 ∧
    (updateStudent students i X).2.1 = some { X with id := i } ∧
    getHandler (updateStudent students i X).2.2 i =
      (200, some { X with id := i }) := by
  have hid : ({ X with id := i } : Student).id = i := rfl
  obtain ⟨l2, hl2, hget⟩ := updateFirst_found { X with id := i } students hin
  rw [hid] at hget
  refine ⟨?_, ?_, ?_⟩
  · simp [updateStudent, hv, hl2]
  · simp [updateStudent, hv, hl2]
  · simp only [updateStudent, hv, hl2]
    simp [getHandler, hget]

/-- Claim C5 witness: updating the record with id 1 to Bob's fields. -/
theorem C5_witness :
    (updateStudent [stA1] 1 stB).1 = 200 ∧
    (updateStudent [stA1] 1 stB).2.1 = some { stB with id := 1 } :=
  ⟨(C5_update_roundtrip [stA1] 1 stB ⟨stA1, by simp, rfl⟩ rfl).1,
   (C5_update_roundtrip [stA1] 1 stB ⟨stA1, by simp, rfl⟩ rfl).2.1⟩


/-- Claim C6: get, update (with valid fields) and delete on an id absent
from the store each answer 404, and update and delete leave the store
unchanged. -/
theorem C6_not_found (students : List Student) (i : Int)
    (h : ∀ r ∈ students, r.id ≠ i) :
    getHandler students i = (404, none) ∧
    (∀ body : Student, validateStudent { body with id := i } = .ok () →
        updateStudent students i body = (404, none, students)) ∧
    deleteStudent students i = (404, students) := by
  refine ⟨?_, ?_, ?_⟩
  · simp [getHandler, getStudent_none i students h]
  · intro body hv
    have hnone : updateFirst students { body with id := i } = none :=
      updateFirst_none { body with id := i } students fun x hx => h x hx
    simp [updateStudent, hv, hnone]
  · simp [deleteStudent, deleteFirst_none i students h]

/-- Claim C6 witness: id 5 is absent from the one-record store [stA1]. -/
theorem C6_witness :
    getHandler [stA1] 5 = (404, none) ∧ deleteStudent [stA1] 5 = (404, [stA1]) :=
  ⟨(C6_not_found [stA1] 5 (by decide)).1, (C6_not_found [stA1] 5 (by decide)).2.2⟩

/-- Claim C7 counterexample: in the reachable state runOps demoOps (ids
[2, 3, 3]), delete(3) succeeds with 204 yet get(3) still finds a record,
because only the first of the two id-3 records was removed.  This refutes
the claim as stated over all reachable states. -/
theorem C7_counterexample :
    (deleteStudent (runOps demoOps) 3).1 = 204 ∧
    getHandler (deleteStudent (runOps demoOps) 3).2 3 ≠ (404, none) := by decide

/-- Claim C7 (amended): when exactly one record in the store carries the
given id, delete(id) answers 204, a subsequent get(id) answers 404, and
list() no longer contains any record with that id. -/
theorem C7_delete_then_get (pre post : List Student) (r : Student) (i : Int)
    (hpre : ∀ x ∈ pre, x.id ≠ i) (hpost : ∀ x ∈ post, x.id ≠ i) (hr : r.id = i) :
    (deleteStudent (pre ++ r :: post) i).1 = 204 ∧
    getHandler (deleteStudent (pre ++ r :: post) i).2 i = (404, none) ∧
    ∀ x ∈ listHandler (deleteStudent (pre ++ r :: post) i).2, x.id ≠ i := by
  have hdel := deleteFirst_app i r hr pre post hpre
  have hmem : ∀ x ∈ pre ++ post, x.id ≠ i := by
    intro x hx
    rcases List.mem_append.mp hx with hx | hx
    · exact hpre x hx
    · exact hpost x hx
  refine ⟨?_, ?_, ?_⟩
  · simp [deleteStudent, hdel]
  · simp only [deleteStudent, hdel]
    simp [getHandler, getStudent_none i (pre ++ post) hmem]
  · simp only [deleteStudent, hdel, listHandler]
    exact hmem

/-- Claim C7 (amended) witness: deleting the unique id 1 from [stA1]. -/
theorem C7_witness :
    (deleteStudent ([] ++ stA1 :: []) 1).1 = 204 ∧
    getHandler (deleteStudent ([] ++ stA1 :: []) 1).2 1 = (404, none) :=
  ⟨(C7_delete_then_get [] [] stA1 1 (by simp) (by simp) rfl).1,
   (C7_delete_then_get [] [] stA1 1 (by simp) (by simp) rfl).2.1⟩

/-- Claim C8: the request body is parsed as JSON exactly when the
Content-Type header equals "application/json"; any other value (charset
variants included) sends both POST and PUT down the form-decoding branch,
in which case the JSON payload is irrelevant to the handler's result. -/
theorem C8_content_type :
    (∀ ct : String, isJSONRequest ct = true ↔ ct = "application/json") ∧
    (∀ r : Request, r.contentType = "application/json" → decodeBody r = jsonDecode r) ∧
    (∀ r : Request, r.contentType ≠ "application/json" → decodeBody r = formDecode r) ∧
    (∀ (sts : List Student) (r : Request) (b : Option Student),
        r.contentType ≠ "application/json" →
        postStudents sts { r with jsonBody := b } = postStudents sts r) ∧
    (∀ (sts : List Student) (i : Int) (r : Request) (b : Option Student),
        r.contentType ≠ "application/json" →
        putStudent sts i { r with jsonBody := b } = putStudent sts i r) := by
  refine ⟨?_, ?_, ?_, ?_, ?_⟩
  · intro ct
    simp [isJSONRequest]
  · intro r h
    simp [decodeBody, isJSONRequest, h]
  · intro r h
    simp [decodeBody, isJSONRequest, h]
  · intro sts r b h
    simp [postStudents, decodeBody, isJSONRequest, formDecode, h]
  · intro sts i r b h
    simp [putStudent, decodeBody, isJSONRequest, formDecode, h]

/-- Claim C8 witness: with Content-Type "application/json; charset=utf-8"
the JSON payload does not influence the POST handler (the body goes down
the form branch). -/
theorem C8_witness :
    postStudents [] { rCharset with jsonBody := some stA } = postStudents [] rCharset :=
  C8_content_type.2.2.2.1 [] rCharset (some stA) (by decide)

/-- Claim C9: a client-supplied id in the body is ignored: the record a
successful POST stores carries id = pre-create count + 1, and the record a
successful PUT stores carries the id from the URL path, whatever the
decoded body said. -/
theorem C9_body_id_ignored :
    (∀ (sts : List Student) (r : Request) (s : Student),
        (postStudents sts r).2.1 = some s → s.id = (sts.length : Int) + 1) ∧
    (∀ (sts : List Student) (i : Int) (r : Request) (s : Student),
        (putStudent sts i r).2.1 = some s → s.id = i) := by
  constructor
  · intro sts r s h
    simp only [postStudents] at h
    split at h
    · simp at h
    · exact createStudent_some_id sts _ s h
  · intro sts i r s h
    simp only [putStudent] at h
    split at h
    · simp at h
    · exact updateStudent_some_id sts i _ s h

/-- Claim C9 witness: a JSON body claiming id 999 is stored with id 1. -/
theorem C9_witness : stStored.id = (([] : List Student).length : Int) + 1 :=
  C9_body_id_ignored.1 [] rJson999 stStored (by decide)

/-- Claim C10: get, update and delete all act on the first record (in
insertion order) whose id matches: get returns it, update replaces exactly
it, delete removes exactly it, with every other record and the relative
order untouched. -/
theorem C10_first_match (pre post : List Student) (r : Student) (i : Int)
    (hpre : ∀ x ∈ pre, x.id ≠ i) (hr : r.id = i) :
    getHandler (pre ++ r :: post) i = (200, some r) ∧
    (∀ body : Student, validateStudent { body with id := i } = .ok () →
        (updateStudent (pre ++ r :: post) i body).2.2 =
          pre ++ { body with id := i } :: post) ∧
    deleteStudent (pre ++ r :: post) i = (204, pre ++ post) := by
  refine ⟨?_, ?_, ?_⟩
  · simp [getHandler, getStudent_first i r hr pre post hpre]
  · intro body hv
    have hupd := updateFirst_app { body with id := i } r hr pre post
      fun x hx => hpre x hx
    simp [updateStudent, hv, hupd]
  · simp [deleteStudent, deleteFirst_app i r hr pre post hpre]

/-- Claim C10 witness: in [stA1, stB2], operating on id 1 touches only the
first record. -/
theorem C10_witness :
    getHandler ([] ++ stA1 :: [stB2]) 1 = (200, some stA1) ∧
    deleteStudent ([] ++ stA1 :: [stB2]) 1 = (204, [] ++ [stB2]) :=
  ⟨(C10_first_match [] [stB2] stA1 1 (by simp) rfl).1,
   (C10_first_match [] [stB2] stA1 1 (by simp) rfl).2.2⟩
